import Mathlib

/-
  Verification of the proxyrecorder interception/persistence pipeline.

  Shallow embedding of:
  - pkg/recorder/recorder.go   (Record Store: directory scan, identifier
    derivation, snapshot lookup and prior-snapshot resolution)
  - pkg/proxy/handler.go       (Interception Handler: request capture,
    correlation map, selection, identifier allocation, lifecycle events,
    persistence calls, snapshot orchestration)
  - the server bootstrap and the tool's init-state reconstruction
    (unnamed source parts: Server.takeInitialSnapshotIfNeeded,
    tool._getAllRequestInfo)

  Modelling conventions:
  - Byte slices are modelled by the abstract type ByteBlob.  A request
    payload that json.Unmarshal would accept is a .jsonPayload value
    carrying the operationName and query fields; any other blob makes
    ParseRequest fail, mirroring a json.Unmarshal error.  The empty byte
    string is the distinguished value .empty.
  - The file system seen by the Record Store is modelled per query:
    ioutil.ReadDir output is a list of entry names (Go returns them
    sorted by name; for directories created by the store itself, i.e.
    request-NNNNNN with six zero-padded digits, name order coincides
    with numeric order, so a store state is presented as an ascending
    list of identifiers mapped through dirName).  Individual files are
    modelled as functions from identifier to Option ByteBlob; a none
    result is an os.IsNotExist read error, which is the only I/O failure
    of a healthy disk and the only one the claims exercise.
  - Effects of the handler (lifecycle events on requestInfoChan, calls
    to the RecorderSaver, calls to the Reporter, the Go return value)
    are collected in a StepOut record.  The outcome a RecorderSaver
    write would return is supplied by an oracle function, and is stored
    with each save call exactly as the Go code receives it; handler.go
    discards those results, which StepOut makes observable.
-/

namespace ProxyRecorder

/-- Abstract model of a Go byte slice. A blob parseable as the GraphQL
JSON payload carries operationName, query and an opaque variables tag;
raw blobs fail to parse; empty is the empty byte string. -/
inductive ByteBlob where
  | jsonPayload (operationName : String) (query : String) (variablesTag : Nat)
  | raw (tag : Nat)
  | empty
  deriving DecidableEq

/-- OperationType from pkg/proxy/handler.go. -/
inductive OperationType where
  | unknown
  | query
  | mutation
  deriving DecidableEq

/-- The string value of each OperationType constant in handler.go. -/
def OperationType.toStr : OperationType → String
  | .unknown => "unknown"
  | .query => "query"
  | .mutation => "mutation"

/-- GraphQLRequest from pkg/proxy/handler.go (variables are opaque to
the core and are not inspected by any code under verification). -/
structure GraphQLRequest where
  operationName : String
  query : String
  operationType : OperationType
  deriving DecidableEq

/-- strings.HasPrefix. -/
def strHasPre (s pre : String) : Bool :=
  pre.toList.isPrefixOf s.toList

/-- ParseRequest from pkg/proxy/handler.go: json.Unmarshal followed by
the prefix-based operation-type derivation (case-sensitive literal
prefix match, query checked before mutation, otherwise unknown). -/
def ParseRequest : ByteBlob → Except String GraphQLRequest
  | .jsonPayload name q _ =>
      .ok { operationName := name
            query := q
            operationType :=
              if strHasPre q "query" then .query
              else if strHasPre q "mutation" then .mutation
              else .unknown }
  | .raw t => .error ("invalid JSON payload " ++ toString t)
  | .empty => .error "unexpected end of JSON input"

/-! ## Record Store: directory scan (recorder.GetAllRequestIDs) -/

/-- One attempt of the regexp request-(\d{6}) at a fixed position: the
literal request- followed by six decimal digits, anything after. -/
def matchRequestDir : List Char → Option Nat
  | 'r' :: 'e' :: 'q' :: 'u' :: 'e' :: 's' :: 't' :: '-'
      :: c1 :: c2 :: c3 :: c4 :: c5 :: c6 :: _ =>
    if c1.isDigit && c2.isDigit && c3.isDigit && c4.isDigit && c5.isDigit && c6.isDigit then
      some (((((((c1.toNat - 48) * 10 + (c2.toNat - 48)) * 10 + (c3.toNat - 48)) * 10
        + (c4.toNat - 48)) * 10 + (c5.toNat - 48)) * 10 + (c6.toNat - 48)))
    else
      none
  | _ => none

/-- FindStringSubmatch of the unanchored regexp request-(\d{6}):
leftmost occurrence, returning the parsed six-digit capture group
(strconv.Atoi cannot fail on six digits). -/
def findRequestID : List Char → Option Nat
  | [] => none
  | c :: rest =>
    match matchRequestDir (c :: rest) with
    | some v => some v
    | none => findRequestID rest

/-- Loop body of recorder.GetAllRequestIDs over the ReadDir entries: a
name without a regexp match is an error; identifier 0 is filtered out;
matching identifiers are kept in entry order. -/
def getAllRequestIDsAux : List String → Except String (List Nat)
  | [] => .ok []
  | name :: rest =>
    match findRequestID name.toList with
    | none => .error ("invalid request directory name \"" ++ name ++ "\"")
    | some id =>
      match getAllRequestIDsAux rest with
      | .error e => .error e
      | .ok ids => .ok (if id = 0 then ids else id :: ids)

/-- recorder.GetAllRequestIDs, as a function of the ReadDir entry list
(an empty directory returns the empty list without error). -/
def GetAllRequestIDs (entries : List String) : Except String (List Nat) :=
  getAllRequestIDsAux entries

/-- recorder.NextRequestID: 0 when GetAllRequestIDs is empty, otherwise
the last listed identifier plus one. -/
def NextRequestID (entries : List String) : Except String Nat :=
  match GetAllRequestIDs entries with
  | .error e => .error e
  | .ok ids =>
    match ids.getLast? with
    | none => .ok 0
    | some m => .ok (m + 1)

/-! ## Record Store: naming convention -/

/-- The six characters of %06d for n < 1000000. -/
def digits6 (n : Nat) : List Char :=
  [Nat.digitChar (n / 100000 % 10), Nat.digitChar (n / 10000 % 10),
   Nat.digitChar (n / 1000 % 10), Nat.digitChar (n / 100 % 10),
   Nat.digitChar (n / 10 % 10), Nat.digitChar (n % 10)]

/-- recorder.FormatRequestID: fmt.Sprintf with %06d (zero-padded to six
digits; wider numbers print unpadded). -/
def formatRequestID (n : Nat) : String :=
  if n < 1000000 then String.mk (digits6 n) else toString n

/-- recorder.requestPath directory component: request- plus the
formatted identifier. -/
def dirName (n : Nat) : String :=
  "request-" ++ formatRequestID n

/-! ## Record Store: snapshot lookup (recorder.MaybeGetSnapshot /
recorder.GetPriorSnapshot) -/

/-- recorder.MaybeGetSnapshot over the snapshot-file map: a missing
file (os.IsNotExist) is none, not an error. -/
def MaybeGetSnapshot (snap : Nat → Option ByteBlob) (id : Nat) : Option ByteBlob :=
  snap id

/-- The descending loop of recorder.GetPriorSnapshot: check identifier
k, then k-1, ... down to 0, returning the first snapshot present. -/
def scanForSnapshot (snap : Nat → Option ByteBlob) : Nat → Option ByteBlob
  | 0 => MaybeGetSnapshot snap 0
  | k + 1 =>
    match MaybeGetSnapshot snap (k + 1) with
    | some b => some b
    | none => scanForSnapshot snap k

/-- recorder.GetPriorSnapshot: error for id <= 0 before any file is
read; otherwise walk from id-1 down to 0 and fail if no identifier in
that range has a snapshot file. -/
def GetPriorSnapshot (snap : Nat → Option ByteBlob) (requestID : Int) : Except String ByteBlob :=
  if requestID ≤ 0 then
    .error ("invalid request ID, " ++ toString requestID)
  else
    match scanForSnapshot snap (requestID - 1).toNat with
    | some b => .ok b
    | none => .error ("prior snapshot not found, requestID " ++ toString requestID)

/-! ## Interception Handler (pkg/proxy/handler.go) -/

/-- RequestInfo from handler.go (the Go struct spells the last field
ShapshotComplete; its JSON tag is snapshotComplete). -/
structure RequestInfo where
  requestID : Nat
  operationType : OperationType
  operationName : String
  willSnapshot : Bool
  snapshotComplete : Bool
  deriving DecidableEq

/-- Which RecorderSaver write a call targets. -/
inductive SaveKind where
  | request
  | response
  | snapshot
  deriving DecidableEq

/-- One call made to the RecorderSaver, together with the error value
the store returned for it (none = nil).  handler.go receives and
discards these results. -/
structure SaveCall where
  kind : SaveKind
  requestID : Nat
  content : ByteBlob
  result : Option String
  deriving DecidableEq

/-- One Reporter.Report call. -/
structure Report where
  label : String
  message : String
  deriving DecidableEq

/-- The mutable Handler fields guarded by h.mu: the identifier counter
and the correlation map keyed by the in-flight *http.Request (request
objects are modelled by Nat keys). -/
structure HandlerState where
  nextRequestID : Nat
  requestContent : Nat → Option ByteBlob

/-- The external collaborators consumed by the handler: the Selection
Policy (RequestSelector) and the Snapshot Provider (Snapshotter). -/
structure Collaborators where
  shouldRecord : GraphQLRequest → Bool
  shouldSnapshot : GraphQLRequest → Bool
  takeSnapshot : GraphQLRequest → Except String ByteBlob
  snapshotInfo : String

/-- The write-outcome behaviour of the RecorderSaver: for each kind and
identifier, the error the save call returns (none = success). -/
def SaveOracle := SaveKind → Nat → Option String

/-- What the handler observes of one upstream response: the request
object it belongs to, the request URL path, and the decoded response
body (none models a read/gunzip failure in
readAndResetResponseContent). -/
structure ProxyResponse where
  reqKey : Nat
  path : String
  bodyRead : Option ByteBlob

/-- All effects of one ProxyResponseHandler call: the post state, the
RequestInfo values sent on requestInfoChan in order, the RecorderSaver
calls in order, the Reporter calls in order, and the Go return value
(none = nil). -/
structure StepOut where
  state : HandlerState
  events : List RequestInfo
  saves : List SaveCall
  reports : List Report
  result : Option String

/-- Substring test, one candidate start position (pattern then
anything). -/
def containsSub (pat : List Char) : List Char → Bool
  | [] => pat.isEmpty
  | c :: rest => pat.isPrefixOf (c :: rest) || containsSub pat rest

/-- strings.Contains. -/
def strContains (s pat : String) : Bool :=
  containsSub pat.toList s.toList

/-- The fixed path marker checked by ProxyResponseHandler. -/
def graphqlMarker : String := "/backend-graphql/"

/-- Handler.ProxyDirector, restricted to its observable effect on the
handler state: the fully buffered request body is stored in the
correlation map under the request object (host/scheme rewriting has no
bearing on any claim). -/
def ProxyDirector (st : HandlerState) (reqKey : Nat) (body : ByteBlob) : HandlerState :=
  { st with requestContent := fun k => if k = reqKey then some body else st.requestContent k }

/-- proxy.TakeSnapshot: report, invoke the provider, report the error
or completion, and on success persist the snapshot (write result
discarded).  Returns the reports, the save calls and the provider
error that the caller receives. -/
def TakeSnapshot (c : Collaborators) (save : SaveOracle) (requestID : Nat)
    (g : GraphQLRequest) : List Report × List SaveCall × Option String :=
  let r1 : Report := ⟨"", "taking a snapshot, " ++ c.snapshotInfo ++ "..."⟩
  match c.takeSnapshot g with
  | .error e => ([r1, ⟨"error", e⟩], [], some e)
  | .ok snap =>
    ([r1, ⟨"", "...done"⟩],
     [⟨.snapshot, requestID, snap, save .snapshot requestID⟩],
     none)

/-- Handler.ProxyResponseHandler, straight-line embedding of every
branch: marker check, correlation lookup and delete, empty-content
warning, parse, selection, response read, identifier allocation, first
lifecycle event, request/response persistence (results discarded), log
line, optional snapshot orchestration with second lifecycle event.
Every path returns nil. -/
def ProxyResponseHandler (c : Collaborators) (save : SaveOracle) (st : HandlerState)
    (resp : ProxyResponse) : StepOut :=
  match strContains resp.path graphqlMarker with
  | false => ⟨st, [], [], [], none⟩
  | true =>
    let st1 : HandlerState :=
      { st with requestContent := fun k => if k = resp.reqKey then none else st.requestContent k }
    match st.requestContent resp.reqKey with
    | none => ⟨st1, [], [], [⟨"warning", "no request content, " ++ resp.path⟩], none⟩
    | some blob =>
      if blob = .empty then
        ⟨st1, [], [], [⟨"warning", "no request content, " ++ resp.path⟩], none⟩
      else
        match ParseRequest blob with
        | .error e => ⟨st1, [], [], [⟨"error", e⟩], none⟩
        | .ok g =>
          match c.shouldRecord g with
          | false => ⟨st1, [], [], [], none⟩
          | true =>
            match resp.bodyRead with
            | none => ⟨st1, [], [], [⟨"error", "could not read response"⟩], none⟩
            | some responseContent =>
              let currentRequestID := st1.nextRequestID
              let st2 : HandlerState := { st1 with nextRequestID := currentRequestID + 1 }
              let willSnapshot := c.shouldSnapshot g
              let e1 : RequestInfo :=
                ⟨currentRequestID, g.operationType, g.operationName, willSnapshot, false⟩
              let s1 : SaveCall :=
                ⟨.request, currentRequestID, blob, save .request currentRequestID⟩
              let s2 : SaveCall :=
                ⟨.response, currentRequestID, responseContent, save .response currentRequestID⟩
              let logR : Report :=
                ⟨g.operationType.toStr, formatRequestID currentRequestID ++ " " ++ g.operationName⟩
              match willSnapshot with
              | false => ⟨st2, [e1], [s1, s2], [logR], none⟩
              | true =>
                let snapOut := TakeSnapshot c save currentRequestID g
                let e2 : RequestInfo :=
                  ⟨currentRequestID, g.operationType, g.operationName, willSnapshot,
                    snapOut.2.2.isNone⟩
                ⟨st2, [e1, e2], [s1, s2] ++ snapOut.2.1, [logR] ++ snapOut.1, none⟩

/-- proxy.NewHandler, restricted to its observable construction
behaviour: query the store for the next identifier (store failure fails
construction) and start with that counter and an empty correlation
map. -/
def NewHandler (entries : List String) : Except String HandlerState :=
  match NextRequestID entries with
  | .error e => .error e
  | .ok n => .ok ⟨n, fun _ => none⟩

/-! ## Server bootstrap (Server.takeInitialSnapshotIfNeeded) -/

/-- Server.takeInitialSnapshotIfNeeded: query NextRequestID (store
failure is fatal); skip unless it returns 0; otherwise invoke the
provider (provider failure is fatal) and persist the result under
identifier 0.  The value some (0, b) records that snapshot b was
persisted under identifier 0; none records that bootstrap was
skipped. -/
def takeInitialSnapshotIfNeeded (entries : List String)
    (provider : Except String ByteBlob) : Except String (Option (Nat × ByteBlob)) :=
  match NextRequestID entries with
  | .error e => .error e
  | .ok n =>
    if n ≠ 0 then
      .ok none
    else
      match provider with
      | .error e => .error e
      | .ok b => .ok (some (0, b))

/-! ## Tool init state (tool._getAllRequestInfo) -/

/-- The store contents consulted by the tool: the ReadDir entry list of
the root directory, and the request.txt / snapshot.txt contents per
identifier. -/
structure StoreState where
  entries : List String
  request : Nat → Option ByteBlob
  snapshot : Nat → Option ByteBlob

/-- The loop of tool._getAllRequestInfo over the listed identifiers: a
missing request file or a parse failure aborts with an error; both
snapshot flags of each reconstructed RequestInfo are set to whether the
identifier has a snapshot file. -/
def getAllRequestInfoAux (st : StoreState) : List Nat → Except String (List RequestInfo)
  | [] => .ok []
  | id :: rest =>
    match st.request id with
    | none => .error ("no request file for identifier " ++ formatRequestID id)
    | some blob =>
      match ParseRequest blob with
      | .error e => .error e
      | .ok g =>
        match getAllRequestInfoAux st rest with
        | .error e => .error e
        | .ok infos =>
          .ok ({ requestID := id
                 operationType := g.operationType
                 operationName := g.operationName
                 willSnapshot := (st.snapshot id).isSome
                 snapshotComplete := (st.snapshot id).isSome } :: infos)

/-- tool._getAllRequestInfo: list the identifiers, then reconstruct one
RequestInfo per identifier in that order. -/
def getAllRequestInfo (st : StoreState) : Except String (List RequestInfo) :=
  match GetAllRequestIDs st.entries with
  | .error e => .error e
  | .ok ids => getAllRequestInfoAux st ids

/-- Replaying the snapshot writes of a list of save calls onto a
snapshot-file map: a successful snapshot-kind write creates (or
overwrites) the file for its identifier; failed writes and other kinds
leave the map unchanged. -/
def applySnapshotSaves (saves : List SaveCall) (snap : Nat → Option ByteBlob) :
    Nat → Option ByteBlob :=
  saves.foldl
    (fun m s =>
      match s.kind, s.result with
      | .snapshot, none => fun j => if j = s.requestID then some s.content else m j
      | _, _ => m)
    snap

/-! ## Lemmas about the descending snapshot scan -/

theorem scanForSnapshot_none (snap : Nat → Option ByteBlob) :
    ∀ n, scanForSnapshot snap n = none ↔ ∀ j, j ≤ n → snap j = none := by
  intro n
  induction n with
  | zero =>
    simp only [scanForSnapshot, MaybeGetSnapshot]
    constructor
    · intro h j hj
      rcases Nat.le_zero.mp hj with rfl
      exact h
    · intro h
      exact h 0 le_rfl
  | succ k ih =>
    cases hk : snap (k + 1) with
    | some b =>
      simp only [scanForSnapshot, MaybeGetSnapshot, hk]
      constructor
      · intro h
        cases h
      · intro h
        have := h (k + 1) le_rfl
        rw [this] at hk
        cases hk
    | none =>
      simp only [scanForSnapshot, MaybeGetSnapshot, hk]
      rw [ih]
      constructor
      · intro h j hj
        have hcase : j ≤ k ∨ j = k + 1 := by omega
        rcases hcase with hle | rfl
        · exact h j hle
        · exact hk
      · intro h j hj
        exact h j (by omega)

theorem scanForSnapshot_some (snap : Nat → Option ByteBlob) :
    ∀ n b, scanForSnapshot snap n = some b →
      ∃ j, j ≤ n ∧ snap j = some b ∧ ∀ k, j < k → k ≤ n → snap k = none := by
  intro n
  induction n with
  | zero =>
    intro b h
    exact ⟨0, le_rfl, h, fun k hk1 hk2 => by omega⟩
  | succ k ih =>
    intro b h
    cases hk : snap (k + 1) with
    | some c =>
      simp only [scanForSnapshot, MaybeGetSnapshot, hk] at h
      cases h
      exact ⟨k + 1, le_rfl, hk, fun m hm1 hm2 => by omega⟩
    | none =>
      simp only [scanForSnapshot, MaybeGetSnapshot, hk] at h
      obtain ⟨j, hj1, hj2, hj3⟩ := ih b h
      refine ⟨j, by omega, hj2, fun m hm1 hm2 => ?_⟩
      have hcase : m ≤ k ∨ m = k + 1 := by omega
      rcases hcase with hle | rfl
      · exact hj3 m hm1 hle
      · exact hk

/-- C3: for id >= 1, GetPriorSnapshot returns the snapshot of the
greatest identifier strictly below id that has a snapshot file, erring
exactly when no identifier in [0, id-1] has one; for id <= 0 it errs
without consulting any file (the result is the same fixed error for
every snapshot map). -/
theorem getPriorSnapshot_spec (snap : Nat → Option ByteBlob) (id : Int) :
    (id ≤ 0 → GetPriorSnapshot snap id = .error ("invalid request ID, " ++ toString id)) ∧
    (1 ≤ id →
      ((∀ j : Nat, (j : Int) < id → snap j = none) →
        GetPriorSnapshot snap id =
          .error ("prior snapshot not found, requestID " ++ toString id)) ∧
      (∀ j : Nat, (j : Int) < id → snap j ≠ none →
        ∃ m b, GetPriorSnapshot snap id = .ok b ∧ snap m = some b ∧ (m : Int) < id ∧
          ∀ k : Nat, m < k → (k : Int) < id → snap k = none)) := by
  constructor
  · intro h
    simp only [GetPriorSnapshot, if_pos h]
  · intro h1
    have hpos : ¬ id ≤ 0 := by omega
    constructor
    · intro hall
      have hnone : scanForSnapshot snap (id - 1).toNat = none :=
        (scanForSnapshot_none snap _).mpr (fun j hj => hall j (by omega))
      simp only [GetPriorSnapshot, if_neg hpos, hnone]
    · intro j hj hsome
      cases hscan : scanForSnapshot snap (id - 1).toNat with
      | none =>
        exact absurd (((scanForSnapshot_none snap _).mp hscan) j (by omega)) hsome
      | some b =>
        obtain ⟨m, hm1, hm2, hm3⟩ := scanForSnapshot_some snap _ b hscan
        refine ⟨m, b, ?_, hm2, by omega, fun k hk1 hk2 => hm3 k hk1 (by omega)⟩
        simp only [GetPriorSnapshot, if_neg hpos, hscan]

/-- A two-record snapshot map used to instantiate the prior-snapshot
theorem: identifier 0 (the bootstrap) has a snapshot, nothing else
does. -/
def snapEx : Nat → Option ByteBlob :=
  fun j => if j = 0 then some (.raw 5) else none

/-- Witness for C3 at the concrete map snapEx and identifier 1. -/
theorem getPriorSnapshot_spec_witness :
    ∃ m b, GetPriorSnapshot snapEx 1 = .ok b ∧ snapEx m = some b ∧ (m : Int) < 1 ∧
      ∀ k : Nat, m < k → (k : Int) < 1 → snapEx k = none :=
  ((getPriorSnapshot_spec snapEx 1).2 (by decide)).2 0 (by decide)
    (by simp [snapEx])

/-! ## Lemmas about the directory naming convention and the scan -/

theorem digitChar_isDigit : ∀ d, d < 10 → (Nat.digitChar d).isDigit = true := by decide

theorem digitChar_val : ∀ d, d < 10 → (Nat.digitChar d).toNat - 48 = d := by decide

theorem dirName_toList (n : Nat) (h : n < 1000000) :
    (dirName n).toList = 'r' :: 'e' :: 'q' :: 'u' :: 'e' :: 's' :: 't' :: '-' :: digits6 n := by
  simp [dirName, formatRequestID, if_pos h]

/-- The regexp scan recovers the identifier from its own directory
name, for every identifier the six-digit convention can express. -/
theorem findRequestID_dirName (n : Nat) (h : n < 1000000) :
    findRequestID (dirName n).toList = some n := by
  have d1 : n / 100000 % 10 < 10 := Nat.mod_lt _ (by norm_num)
  have d2 : n / 10000 % 10 < 10 := Nat.mod_lt _ (by norm_num)
  have d3 : n / 1000 % 10 < 10 := Nat.mod_lt _ (by norm_num)
  have d4 : n / 100 % 10 < 10 := Nat.mod_lt _ (by norm_num)
  have d5 : n / 10 % 10 < 10 := Nat.mod_lt _ (by norm_num)
  have d6 : n % 10 < 10 := Nat.mod_lt _ (by norm_num)
  rw [dirName_toList n h]
  simp [digits6, findRequestID, matchRequestDir,
    digitChar_isDigit _ d1, digitChar_isDigit _ d2, digitChar_isDigit _ d3,
    digitChar_isDigit _ d4, digitChar_isDigit _ d5, digitChar_isDigit _ d6,
    digitChar_val _ d1, digitChar_val _ d2, digitChar_val _ d3,
    digitChar_val _ d4, digitChar_val _ d5, digitChar_val _ d6]
  omega

/-- On a directory whose entries are exactly the store's own directory
names for an identifier list, the scan succeeds and returns the
identifiers in entry order with identifier 0 dropped. -/
theorem getAllRequestIDs_dirNames :
    ∀ ids : List Nat, (∀ i ∈ ids, i < 1000000) →
      GetAllRequestIDs (ids.map dirName) = .ok (ids.filter (fun i => decide (i ≠ 0))) := by
  intro ids
  induction ids with
  | nil => intro _; rfl
  | cons a l ih =>
    intro hb
    have ha : a < 1000000 := hb a (List.mem_cons_self a l)
    have hl : ∀ i ∈ l, i < 1000000 := fun i hi => hb i (List.mem_cons_of_mem a hi)
    have ihl := ih hl
    simp only [GetAllRequestIDs] at ihl
    simp only [List.map_cons, GetAllRequestIDs, getAllRequestIDsAux,
      findRequestID_dirName a ha, ihl, List.filter_cons]
    by_cases h0 : a = 0
    · subst h0
      simp
    · simp [h0]

/-- In a strictly ascending list the last element bounds every
element. -/
theorem chain_lt_le_getLast :
    ∀ l : List Nat, List.Chain' (· < ·) l → ∀ m, l.getLast? = some m → ∀ x ∈ l, x ≤ m := by
  intro l
  induction l with
  | nil => intro _ m hm; cases hm
  | cons a l ih =>
    intro hc m hm x hx
    cases l with
    | nil =>
      simp only [List.getLast?_singleton, Option.some.injEq] at hm
      rcases List.mem_singleton.mp hx with rfl
      omega
    | cons b l' =>
      rw [List.getLast?_cons_cons] at hm
      have hab : a < b := (List.chain'_cons.mp hc).1
      have hc' : List.Chain' (· < ·) (b :: l') := (List.chain'_cons.mp hc).2
      have hb_le : b ≤ m := ih hc' m hm b (List.mem_cons_self b l')
      rcases List.mem_cons.mp hx with rfl | hx'
      · omega
      · exact ih hc' m hm x hx'

/-- C6: for every store state written by the store itself (entries are
the directory names of a strictly ascending identifier list within the
six-digit convention), the listing never contains identifier 0 and is
strictly ascending, and NextRequestID is the maximum listed identifier
plus one, or 0 when the listing is empty. -/
theorem nextRequestID_max_spec (ids : List Nat) (hchain : List.Chain' (· < ·) ids)
    (hb : ∀ i ∈ ids, i < 1000000) :
    ∃ l, GetAllRequestIDs (ids.map dirName) = .ok l ∧
      (0 : Nat) ∉ l ∧
      List.Chain' (· < ·) l ∧
      (l = [] → NextRequestID (ids.map dirName) = .ok 0) ∧
      (∀ m, l.getLast? = some m →
        NextRequestID (ids.map dirName) = .ok (m + 1) ∧ m ∈ l ∧ ∀ x ∈ l, x ≤ m) := by
  refine ⟨ids.filter (fun i => decide (i ≠ 0)), getAllRequestIDs_dirNames ids hb, ?_, ?_, ?_, ?_⟩
  · simp
  · rw [List.chain'_iff_pairwise] at hchain ⊢
    exact hchain.filter _
  · intro hempty
    simp only [NextRequestID, getAllRequestIDs_dirNames ids hb, hempty, List.getLast?_nil]
  · intro m hm
    have hfilter : List.Chain' (· < ·) (ids.filter (fun i => decide (i ≠ 0))) := by
      rw [List.chain'_iff_pairwise] at hchain ⊢
      exact hchain.filter _
    have hmem : m ∈ ids.filter (fun i => decide (i ≠ 0)) := by
      obtain ⟨hne, heq⟩ := List.mem_getLast?_eq_getLast (Option.mem_def.mpr hm)
      rw [heq]
      exact List.getLast_mem hne
    refine ⟨?_, hmem, chain_lt_le_getLast _ hfilter m hm⟩
    simp only [NextRequestID, getAllRequestIDs_dirNames ids hb, hm]

/-- Witness for C6 at the concrete store holding identifiers 1 and 2. -/
theorem nextRequestID_max_spec_witness :
    ∃ l, GetAllRequestIDs ([1, 2].map dirName) = .ok l ∧
      (0 : Nat) ∉ l ∧
      List.Chain' (· < ·) l ∧
      (l = [] → NextRequestID ([1, 2].map dirName) = .ok 0) ∧
      (∀ m, l.getLast? = some m →
        NextRequestID ([1, 2].map dirName) = .ok (m + 1) ∧ m ∈ l ∧ ∀ x ∈ l, x ≤ m) :=
  nextRequestID_max_spec [1, 2] (List.chain'_pair.mpr (by norm_num)) (by decide)

/-! ## Foreign entries abort the scan -/

/-- C10: any directory entry without an occurrence of the
request-(\d{6}) pattern makes GetAllRequestIDs error, and the error
propagates to NextRequestID and to handler construction. -/
theorem foreignEntryFailsScan :
    ∀ entries : List String, ∀ bad : String, bad ∈ entries →
      findRequestID bad.toList = none →
      ∃ msg, GetAllRequestIDs entries = .error msg ∧
        NextRequestID entries = .error msg ∧ NewHandler entries = .error msg := by
  intro entries
  induction entries with
  | nil =>
    intro bad hmem _
    cases hmem
  | cons a l ih =>
    intro bad hmem hbad
    cases hfa : findRequestID a.toList with
    | none =>
      have hG : GetAllRequestIDs (a :: l) =
          .error ("invalid request directory name \"" ++ a ++ "\"") := by
        simp only [GetAllRequestIDs, getAllRequestIDsAux, hfa]
      exact ⟨_, hG, by simp only [NextRequestID, hG], by
        simp only [NewHandler, NextRequestID, hG]⟩
    | some v =>
      have hbl : bad ∈ l := by
        rcases List.mem_cons.mp hmem with rfl | h
        · rw [hbad] at hfa
          cases hfa
        · exact h
      obtain ⟨msg, h1, h2, h3⟩ := ih bad hbl hbad
      have h1' : getAllRequestIDsAux l = .error msg := h1
      have hG : GetAllRequestIDs (a :: l) = .error msg := by
        simp only [GetAllRequestIDs, getAllRequestIDsAux, hfa, h1']
      exact ⟨msg, hG, by simp only [NextRequestID, hG], by
        simp only [NewHandler, NextRequestID, hG]⟩

/-- Witness for C10 at a store containing one stray file. -/
theorem foreignEntryFailsScan_witness :
    ∃ msg, GetAllRequestIDs ["config.yaml"] = .error msg ∧
      NextRequestID ["config.yaml"] = .error msg ∧
      NewHandler ["config.yaml"] = .error msg :=
  foreignEntryFailsScan ["config.yaml"] "config.yaml" (List.mem_singleton.mpr rfl) rfl

/-! ## Bootstrap guard -/

/-- Counterexample for C2: on the empty store NextRequestID returns 0,
a value other than 1, yet the bootstrap snapshot is taken and persisted
under identifier 0 rather than skipped. -/
theorem bootstrapRunsWhenNextIDZero :
    NextRequestID [] = .ok 0 ∧
    takeInitialSnapshotIfNeeded [] (.ok (.raw 7)) = .ok (some (0, .raw 7)) :=
  ⟨rfl, rfl⟩

/-- C2 (amended): the bootstrap guard compares NextRequestID against 0:
any non-zero value skips bootstrap, and on 0 the provider snapshot is
persisted under identifier 0. -/
theorem bootstrapGuardIsZero (entries : List String) (provider : Except String ByteBlob)
    (n : Nat) (h : NextRequestID entries = .ok n) :
    (n ≠ 0 → takeInitialSnapshotIfNeeded entries provider = .ok none) ∧
    (n = 0 → ∀ b, provider = .ok b →
      takeInitialSnapshotIfNeeded entries provider = .ok (some (0, b))) := by
  constructor
  · intro hn
    simp [takeInitialSnapshotIfNeeded, h, hn]
  · intro hn b hb
    subst hn
    simp [takeInitialSnapshotIfNeeded, h, hb]

/-- Witness for the amended C2: a store holding identifier 1 skips
bootstrap, since NextRequestID returns 2. -/
theorem bootstrapGuardIsZero_witness :
    ((2 : Nat) ≠ 0 → takeInitialSnapshotIfNeeded [dirName 1] (.ok (.raw 7)) = .ok none) ∧
    ((2 : Nat) = 0 → ∀ b : ByteBlob,
      (Except.ok (ByteBlob.raw 7) : Except String ByteBlob) = .ok b →
      takeInitialSnapshotIfNeeded [dirName 1] (.ok (.raw 7)) = .ok (some (0, b))) :=
  bootstrapGuardIsZero [dirName 1] (.ok (.raw 7)) 2 rfl

/-! ## Concrete fixtures for the handler runs -/

/-- A policy that records everything and snapshots nothing, with a
provider that always succeeds. -/
def alwaysCollab : Collaborators :=
  ⟨fun _ => true, fun _ => false, fun _ => .ok (.raw 0), "snapshot info"⟩

/-- A policy that rejects everything. -/
def rejectCollab : Collaborators :=
  ⟨fun _ => false, fun _ => false, fun _ => .ok (.raw 0), "snapshot info"⟩

/-- A policy that records and snapshots everything, with a provider
that always fails. -/
def failSnapCollab : Collaborators :=
  ⟨fun _ => true, fun _ => true, fun _ => .error "export failed", "ctx"⟩

/-- A store whose request write fails while other writes succeed. -/
def failReqSave : SaveOracle :=
  fun k _ => match k with
  | .request => some "disk full"
  | _ => none

/-- A store whose writes all succeed. -/
def okSaves : SaveOracle := fun _ _ => none

/-- The handler state NewHandler builds from the empty store. -/
def emptyStart : HandlerState := ⟨0, fun _ => none⟩

/-- A parseable mutation payload. -/
def c1Req1 : ByteBlob := .jsonPayload "opOne" "mutation m" 0

/-- A parseable query payload. -/
def c1Req2 : ByteBlob := .jsonPayload "opTwo" "query q" 0

/-- First exchange against the empty-store handler state. -/
def c1Step1 : StepOut :=
  ProxyResponseHandler alwaysCollab okSaves (ProxyDirector emptyStart 0 c1Req1)
    ⟨0, "/backend-graphql/q", some (.raw 1)⟩

/-- Second exchange, continuing from the first one's state. -/
def c1Step2 : StepOut :=
  ProxyResponseHandler alwaysCollab okSaves (ProxyDirector c1Step1.state 1 c1Req2)
    ⟨1, "/backend-graphql/q", some (.raw 2)⟩

/-- C1 (evaluation at the failing input): constructed from the empty
store, the handler counter starts at 0, so the first two accepted
operations receive identifiers 0 and 1 — not 1 and 2 — and the first
operation's request/response files are persisted under the reserved
identifier 0. -/
theorem identifiersFromEmptyStoreStartAtZero :
    NextRequestID [] = .ok 0 ∧
    NewHandler [] = .ok emptyStart ∧
    c1Step1.events.map (fun e => e.requestID) = [0] ∧
    c1Step2.events.map (fun e => e.requestID) = [1] ∧
    c1Step1.saves.map (fun s => s.requestID) = [0, 0] :=
  ⟨rfl, rfl, rfl, rfl, rfl⟩

/-! ## Correlation map reclamation -/

/-- Counterexample for C4: after a response on a path without the
marker is processed, the buffered entry for its request object is still
in the correlation map. -/
theorem correlationEntryLeaksOnNonMatchingPath :
    (ProxyResponseHandler alwaysCollab okSaves (ProxyDirector emptyStart 0 c1Req1)
      ⟨0, "/some/endpoint", some (.raw 1)⟩).state.requestContent 0 = some c1Req1 ∧
    (ProxyResponseHandler alwaysCollab okSaves (ProxyDirector emptyStart 0 c1Req1)
      ⟨0, "/some/endpoint", some (.raw 1)⟩).result = none :=
  ⟨rfl, rfl⟩

/-- C4 (amended): for a response whose request path contains the
marker, the correlation entry keyed by its request object is removed,
whatever else the handler does. -/
theorem correlationEntryRemovedOnMatchingPath (c : Collaborators) (save : SaveOracle)
    (st : HandlerState) (resp : ProxyResponse)
    (h : strContains resp.path graphqlMarker = true) :
    (ProxyResponseHandler c save st resp).state.requestContent resp.reqKey = none := by
  simp only [ProxyResponseHandler, h]
  repeat' split <;> try simp

/-- Witness for the amended C4 on a concrete matching-path exchange. -/
theorem correlationEntryRemovedOnMatchingPath_witness :
    (ProxyResponseHandler alwaysCollab okSaves (ProxyDirector emptyStart 0 c1Req1)
      ⟨0, "/backend-graphql/q", some (.raw 1)⟩).state.requestContent 0 = none :=
  correlationEntryRemovedOnMatchingPath alwaysCollab okSaves
    (ProxyDirector emptyStart 0 c1Req1) ⟨0, "/backend-graphql/q", some (.raw 1)⟩ rfl

/-! ## Rejected operations have no effect -/

/-- C7: an operation the Selection Policy declines to record leaves the
identifier counter unchanged, emits no lifecycle event and writes
nothing to the store. -/
theorem rejectedOperationHasNoEffect (c : Collaborators) (save : SaveOracle)
    (st : HandlerState) (resp : ProxyResponse) (blob : ByteBlob) (g : GraphQLRequest)
    (hmark : strContains resp.path graphqlMarker = true)
    (hrc : st.requestContent resp.reqKey = some blob)
    (hne : blob ≠ .empty)
    (hparse : ParseRequest blob = .ok g)
    (hrej : c.shouldRecord g = false) :
    (ProxyResponseHandler c save st resp).state.nextRequestID = st.nextRequestID ∧
    (ProxyResponseHandler c save st resp).events = [] ∧
    (ProxyResponseHandler c save st resp).saves = [] := by
  simp only [ProxyResponseHandler, hmark, hrc, if_neg hne, hparse, hrej]
  exact ⟨trivial, trivial, trivial⟩

/-- Witness for C7 on a concrete rejected exchange. -/
theorem rejectedOperationHasNoEffect_witness :
    (ProxyResponseHandler rejectCollab okSaves (ProxyDirector emptyStart 0 c1Req1)
      ⟨0, "/backend-graphql/q", some (.raw 1)⟩).state.nextRequestID =
      (ProxyDirector emptyStart 0 c1Req1).nextRequestID ∧
    (ProxyResponseHandler rejectCollab okSaves (ProxyDirector emptyStart 0 c1Req1)
      ⟨0, "/backend-graphql/q", some (.raw 1)⟩).events = [] ∧
    (ProxyResponseHandler rejectCollab okSaves (ProxyDirector emptyStart 0 c1Req1)
      ⟨0, "/backend-graphql/q", some (.raw 1)⟩).saves = [] :=
  rejectedOperationHasNoEffect rejectCollab okSaves (ProxyDirector emptyStart 0 c1Req1)
    ⟨0, "/backend-graphql/q", some (.raw 1)⟩ c1Req1
    ⟨"opOne", "mutation m", .mutation⟩ rfl rfl (by decide) rfl rfl

/-! ## Failure semantics of the response path -/

/-- Counterexample for C5: a run in which the store's SaveRequest call
fails with "disk full", yet the report stream (enumerated completely)
contains no error report and no mention of the failure, while the
handler still returns nil. -/
theorem writeFailureNotReported :
    (ProxyResponseHandler alwaysCollab failReqSave (ProxyDirector emptyStart 0 c1Req1)
      ⟨0, "/backend-graphql/q", some (.raw 1)⟩).saves.map (fun s => s.result) =
      [some "disk full", none] ∧
    (ProxyResponseHandler alwaysCollab failReqSave (ProxyDirector emptyStart 0 c1Req1)
      ⟨0, "/backend-graphql/q", some (.raw 1)⟩).reports =
      [⟨"mutation", "000000 opOne"⟩] ∧
    ((ProxyResponseHandler alwaysCollab failReqSave (ProxyDirector emptyStart 0 c1Req1)
      ⟨0, "/backend-graphql/q", some (.raw 1)⟩).reports.all
        (fun r => r.label != "error" && r.message != "disk full")) = true ∧
    (ProxyResponseHandler alwaysCollab failReqSave (ProxyDirector emptyStart 0 c1Req1)
      ⟨0, "/backend-graphql/q", some (.raw 1)⟩).result = none :=
  ⟨rfl, rfl, rfl, rfl⟩

/-- C5 (amended): the response handler returns nil on every path; its
reports and events never depend on the store write outcomes (write
failures are silently discarded); a snapshot capture failure, by
contrast, is reported to the sink with label error. -/
theorem responseHandlerFailureSemantics (c : Collaborators) (o o' : SaveOracle)
    (st : HandlerState) (resp : ProxyResponse) :
    (ProxyResponseHandler c o st resp).result = none ∧
    (ProxyResponseHandler c o' st resp).reports = (ProxyResponseHandler c o st resp).reports ∧
    (ProxyResponseHandler c o' st resp).events = (ProxyResponseHandler c o st resp).events ∧
    (∀ g blob e, strContains resp.path graphqlMarker = true →
      st.requestContent resp.reqKey = some blob → blob ≠ .empty →
      ParseRequest blob = .ok g → c.shouldRecord g = true →
      ∀ rb, resp.bodyRead = some rb → c.shouldSnapshot g = true →
      c.takeSnapshot g = .error e →
      ⟨"error", e⟩ ∈ (ProxyResponseHandler c o st resp).reports) := by
  refine ⟨?_, ?_, ?_, ?_⟩
  · unfold ProxyResponseHandler TakeSnapshot
    dsimp only
    repeat' split <;> try rfl
  · unfold ProxyResponseHandler TakeSnapshot
    dsimp only
    repeat' split <;> try rfl
  · unfold ProxyResponseHandler TakeSnapshot
    dsimp only
    repeat' split <;> try rfl
  · intro g blob e hmark hrc hne hparse hrec rb hrb hsnap hfail
    simp only [ProxyResponseHandler, hmark, hrc, if_neg hne, hparse, hrec, hrb, hsnap,
      TakeSnapshot, hfail]
    simp

/-- Witness for the amended C5 at a concrete accepted mutation whose
snapshot capture fails (the oracle pair fails the request write on one
side only). -/
theorem responseHandlerFailureSemantics_witness :
    (ProxyResponseHandler failSnapCollab failReqSave (ProxyDirector emptyStart 0 c1Req1)
      ⟨0, "/backend-graphql/q", some (.raw 1)⟩).result = none ∧
    (ProxyResponseHandler failSnapCollab okSaves (ProxyDirector emptyStart 0 c1Req1)
      ⟨0, "/backend-graphql/q", some (.raw 1)⟩).reports =
      (ProxyResponseHandler failSnapCollab failReqSave (ProxyDirector emptyStart 0 c1Req1)
        ⟨0, "/backend-graphql/q", some (.raw 1)⟩).reports ∧
    (ProxyResponseHandler failSnapCollab okSaves (ProxyDirector emptyStart 0 c1Req1)
      ⟨0, "/backend-graphql/q", some (.raw 1)⟩).events =
      (ProxyResponseHandler failSnapCollab failReqSave (ProxyDirector emptyStart 0 c1Req1)
        ⟨0, "/backend-graphql/q", some (.raw 1)⟩).events ∧
    (∀ g blob e, strContains "/backend-graphql/q" graphqlMarker = true →
      (ProxyDirector emptyStart 0 c1Req1).requestContent 0 = some blob →
      blob ≠ .empty → ParseRequest blob = .ok g →
      failSnapCollab.shouldRecord g = true →
      ∀ rb, (some (ByteBlob.raw 1) : Option ByteBlob) = some rb →
      failSnapCollab.shouldSnapshot g = true →
      failSnapCollab.takeSnapshot g = .error e →
      ⟨"error", e⟩ ∈ (ProxyResponseHandler failSnapCollab failReqSave
        (ProxyDirector emptyStart 0 c1Req1)
        ⟨0, "/backend-graphql/q", some (.raw 1)⟩).reports) :=
  responseHandlerFailureSemantics failSnapCollab failReqSave okSaves
    (ProxyDirector emptyStart 0 c1Req1) ⟨0, "/backend-graphql/q", some (.raw 1)⟩

/-- C8: when an accepted operation's snapshot capture fails, the
request and response bytes are still persisted under the allocated
identifier, no snapshot write is issued at all, the completion event
carries snapshotComplete = false, and prior-snapshot resolution for any
later identifier never lands on this identifier. -/
theorem snapshotFailureSemantics (c : Collaborators) (save : SaveOracle) (st : HandlerState)
    (resp : ProxyResponse) (blob rb : ByteBlob) (g : GraphQLRequest) (e : String)
    (hmark : strContains resp.path graphqlMarker = true)
    (hrc : st.requestContent resp.reqKey = some blob)
    (hne : blob ≠ .empty)
    (hparse : ParseRequest blob = .ok g)
    (hrec : c.shouldRecord g = true)
    (hbody : resp.bodyRead = some rb)
    (hsnap : c.shouldSnapshot g = true)
    (hfail : c.takeSnapshot g = .error e) :
    (ProxyResponseHandler c save st resp).saves =
      [⟨.request, st.nextRequestID, blob, save .request st.nextRequestID⟩,
       ⟨.response, st.nextRequestID, rb, save .response st.nextRequestID⟩] ∧
    (ProxyResponseHandler c save st resp).events =
      [⟨st.nextRequestID, g.operationType, g.operationName, true, false⟩,
       ⟨st.nextRequestID, g.operationType, g.operationName, true, false⟩] ∧
    (∀ snap : Nat → Option ByteBlob, snap st.nextRequestID = none →
      applySnapshotSaves (ProxyResponseHandler c save st resp).saves snap
        st.nextRequestID = none) ∧
    (∀ snap : Nat → Option ByteBlob, snap st.nextRequestID = none →
      ∀ idL : Int, (st.nextRequestID : Int) < idL → ∀ b,
        GetPriorSnapshot (applySnapshotSaves (ProxyResponseHandler c save st resp).saves snap)
          idL = .ok b →
        ∃ j : Nat, (j : Int) < idL ∧ j ≠ st.nextRequestID ∧ snap j = some b) := by
  have hsaves : (ProxyResponseHandler c save st resp).saves =
      [⟨.request, st.nextRequestID, blob, save .request st.nextRequestID⟩,
       ⟨.response, st.nextRequestID, rb, save .response st.nextRequestID⟩] := by
    simp only [ProxyResponseHandler, hmark, hrc, if_neg hne, hparse, hrec, hbody, hsnap,
      TakeSnapshot, hfail]
    simp
  have happly : ∀ snap : Nat → Option ByteBlob,
      applySnapshotSaves (ProxyResponseHandler c save st resp).saves snap = snap := by
    intro snap
    rw [hsaves]
    rfl
  refine ⟨hsaves, ?_, ?_, ?_⟩
  · simp only [ProxyResponseHandler, hmark, hrc, if_neg hne, hparse, hrec, hbody, hsnap,
      TakeSnapshot, hfail]
    simp
  · intro snap hnone
    rw [happly snap]
    exact hnone
  · intro snap hnone idL hlt b hok
    rw [happly snap] at hok
    have hpos : ¬ idL ≤ 0 := by omega
    simp only [GetPriorSnapshot, if_neg hpos] at hok
    cases hscan : scanForSnapshot snap (idL - 1).toNat with
    | none =>
      rw [hscan] at hok
      cases hok
    | some b' =>
      rw [hscan] at hok
      have hbb : b' = b := by injection hok
      obtain ⟨j, hj1, hj2, _⟩ := scanForSnapshot_some snap _ b' hscan
      refine ⟨j, by omega, ?_, hbb ▸ hj2⟩
      intro hjeq
      rw [hjeq, hnone] at hj2
      cases hj2

/-- Witness for C8 on a concrete accepted mutation with failing
provider. -/
theorem snapshotFailureSemantics_witness :
    (ProxyResponseHandler failSnapCollab okSaves (ProxyDirector emptyStart 0 c1Req1)
      ⟨0, "/backend-graphql/q", some (.raw 1)⟩).saves =
      [⟨.request, (ProxyDirector emptyStart 0 c1Req1).nextRequestID, c1Req1,
        okSaves .request (ProxyDirector emptyStart 0 c1Req1).nextRequestID⟩,
       ⟨.response, (ProxyDirector emptyStart 0 c1Req1).nextRequestID, .raw 1,
        okSaves .response (ProxyDirector emptyStart 0 c1Req1).nextRequestID⟩] ∧
    (ProxyResponseHandler failSnapCollab okSaves (ProxyDirector emptyStart 0 c1Req1)
      ⟨0, "/backend-graphql/q", some (.raw 1)⟩).events =
      [⟨(ProxyDirector emptyStart 0 c1Req1).nextRequestID, OperationType.mutation, "opOne",
        true, false⟩,
       ⟨(ProxyDirector emptyStart 0 c1Req1).nextRequestID, OperationType.mutation, "opOne",
        true, false⟩] ∧
    (∀ snap : Nat → Option ByteBlob,
      snap (ProxyDirector emptyStart 0 c1Req1).nextRequestID = none →
      applySnapshotSaves (ProxyResponseHandler failSnapCollab okSaves
          (ProxyDirector emptyStart 0 c1Req1)
          ⟨0, "/backend-graphql/q", some (.raw 1)⟩).saves snap
        (ProxyDirector emptyStart 0 c1Req1).nextRequestID = none) ∧
    (∀ snap : Nat → Option ByteBlob,
      snap (ProxyDirector emptyStart 0 c1Req1).nextRequestID = none →
      ∀ idL : Int, ((ProxyDirector emptyStart 0 c1Req1).nextRequestID : Int) < idL → ∀ b,
        GetPriorSnapshot (applySnapshotSaves (ProxyResponseHandler failSnapCollab okSaves
            (ProxyDirector emptyStart 0 c1Req1)
            ⟨0, "/backend-graphql/q", some (.raw 1)⟩).saves snap) idL = .ok b →
        ∃ j : Nat, (j : Int) < idL ∧ j ≠ (ProxyDirector emptyStart 0 c1Req1).nextRequestID ∧
          snap j = some b) :=
  snapshotFailureSemantics failSnapCollab okSaves (ProxyDirector emptyStart 0 c1Req1)
    ⟨0, "/backend-graphql/q", some (.raw 1)⟩ c1Req1 (.raw 1)
    ⟨"opOne", "mutation m", .mutation⟩ "export failed"
    rfl rfl (by decide) rfl rfl rfl rfl rfl

/-! ## Viewer init state -/

theorem getAllRequestInfoAux_spec (st : StoreState) :
    ∀ ids : List Nat,
      (∀ i ∈ ids, ∃ name q v, st.request i = some (.jsonPayload name q v)) →
      ∃ l, getAllRequestInfoAux st ids = .ok l ∧
        l.map (fun e => e.requestID) = ids ∧
        ∀ e ∈ l, e.willSnapshot = (st.snapshot e.requestID).isSome ∧
          e.snapshotComplete = (st.snapshot e.requestID).isSome := by
  intro ids
  induction ids with
  | nil =>
    intro _
    exact ⟨[], rfl, rfl, by intro e he; cases he⟩
  | cons a rest ih =>
    intro hreq
    obtain ⟨name, q, v, ha⟩ := hreq a (List.mem_cons_self a rest)
    obtain ⟨l', hl1, hl2, hl3⟩ :=
      ih (fun i hi => hreq i (List.mem_cons_of_mem a hi))
    have hl1' : getAllRequestInfoAux st rest = .ok l' := hl1
    refine ⟨{ requestID := a
              operationType := (if strHasPre q "query" then OperationType.query
                else if strHasPre q "mutation" then OperationType.mutation
                else OperationType.unknown)
              operationName := name
              willSnapshot := (st.snapshot a).isSome
              snapshotComplete := (st.snapshot a).isSome } :: l', ?_, ?_, ?_⟩
    · simp only [getAllRequestInfoAux, ha, ParseRequest, hl1']
    · simp only [List.map_cons, hl2]
    · intro e he
      rcases List.mem_cons.mp he with rfl | he'
      · exact ⟨rfl, rfl⟩
      · exact hl3 e he'

/-- C9: for every store state written by the store itself whose listed
identifiers all carry a parseable request payload, the init state sent
to a newly connected viewer has exactly one entry per listed identifier
in ascending listing order, and each entry's willSnapshot and
snapshotComplete flags are both set exactly when that identifier has a
snapshot file. -/
theorem initStateSpec (st : StoreState) (ids : List Nat)
    (hchain : List.Chain' (· < ·) ids)
    (hb : ∀ i ∈ ids, i < 1000000)
    (hentries : st.entries = ids.map dirName)
    (hreq : ∀ i ∈ ids, i ≠ 0 → ∃ name q v, st.request i = some (.jsonPayload name q v)) :
    ∃ l, getAllRequestInfo st = .ok l ∧
      l.map (fun e => e.requestID) = ids.filter (fun i => decide (i ≠ 0)) ∧
      List.Chain' (· < ·) (l.map (fun e => e.requestID)) ∧
      ∀ e ∈ l, e.willSnapshot = (st.snapshot e.requestID).isSome ∧
        e.snapshotComplete = (st.snapshot e.requestID).isSome := by
  have hids : GetAllRequestIDs st.entries = .ok (ids.filter (fun i => decide (i ≠ 0))) := by
    rw [hentries]
    exact getAllRequestIDs_dirNames ids hb
  have hreq' : ∀ i ∈ ids.filter (fun i => decide (i ≠ 0)),
      ∃ name q v, st.request i = some (.jsonPayload name q v) := by
    intro i hi
    have := List.mem_filter.mp hi
    exact hreq i this.1 (by simpa using this.2)
  obtain ⟨l, hl1, hl2, hl3⟩ := getAllRequestInfoAux_spec st _ hreq'
  refine ⟨l, ?_, hl2, ?_, hl3⟩
  · simp only [getAllRequestInfo, hids, hl1]
  · rw [hl2, List.chain'_iff_pairwise] at *
    exact hchain.filter _

/-- The concrete store used to instantiate the init-state theorem:
identifiers 1 and 2 on disk, identifier 1 with a snapshot file. -/
def storeEx : StoreState :=
  ⟨[dirName 1, dirName 2],
   fun i =>
     if i = 1 then some (.jsonPayload "a" "query x" 0)
     else if i = 2 then some (.jsonPayload "b" "mutation y" 0)
     else none,
   fun i => if i = 1 then some (.raw 9) else none⟩

/-- Witness for C9 at the concrete store storeEx. -/
theorem initStateSpec_witness :
    ∃ l, getAllRequestInfo storeEx = .ok l ∧
      l.map (fun e => e.requestID) = [1, 2].filter (fun i => decide (i ≠ 0)) ∧
      List.Chain' (· < ·) (l.map (fun e => e.requestID)) ∧
      ∀ e ∈ l, e.willSnapshot = (storeEx.snapshot e.requestID).isSome ∧
        e.snapshotComplete = (storeEx.snapshot e.requestID).isSome :=
  initStateSpec storeEx [1, 2] (List.chain'_pair.mpr (by norm_num)) (by decide) rfl
    (by
      intro i hi hne
      rcases List.mem_cons.mp hi with rfl | hi2
      · exact ⟨"a", "query x", 0, rfl⟩
      · rcases List.mem_cons.mp hi2 with rfl | hi3
        · exact ⟨"b", "mutation y", 0, rfl⟩
        · cases hi3)

end ProxyRecorder
